import Mathlib

/-!
Shallow embedding of the LeveragePathsStories core: the Journey State
Machine, the Story Timeline data model, the Continuous Buffering Engine
(trigger evaluation and single-flight background generation), the
Timeout Guard, the Initial Generation Pipeline, and route confirmation.

Pure functions of the source are translated to Lean functions; the React
component state becomes an explicit record that the handlers transform;
asynchronous remote calls become explicit outcome parameters (the caller
supplies how each awaited call settled), so each handler is a
deterministic function of the pre-state and those outcomes.
-/

namespace LeveragePathsStories

/-- Modelled from the spec: the `AppState` enumeration lives in
`types.ts`, which is not part of the provided sources; the spec (§3)
describes it as the ordered enumeration
`Planning < RouteConfirmed < GeneratingInitialSegment < ReadyToPlay`,
and the component code compares phases numerically with `<` / `>`. -/
inductive AppState where
  | PLANNING
  | ROUTE_CONFIRMED
  | GENERATING_INITIAL_SEGMENT
  | READY_TO_PLAY
deriving DecidableEq, Repr

/-- Numeric value of the phase, as a TS numeric enum member. -/
def AppState.toNat : AppState → Nat
  | .PLANNING => 0
  | .ROUTE_CONFIRMED => 1
  | .GENERATING_INITIAL_SEGMENT => 2
  | .READY_TO_PLAY => 3

instance : LT AppState := ⟨fun a b => a.toNat < b.toNat⟩

instance : LE AppState := ⟨fun a b => a.toNat ≤ b.toNat⟩

instance (a b : AppState) : Decidable (a < b) :=
  inferInstanceAs (Decidable (a.toNat < b.toNat))

instance (a b : AppState) : Decidable (a ≤ b) :=
  inferInstanceAs (Decidable (a.toNat ≤ b.toNat))

/-- `RouteDetails` as constructed in `RoutePlanner.handleCalculate` and
consumed by `App.handleGenerateStory`: start/end addresses, formatted
distance and duration, duration in seconds, travel mode, voice, style. -/
structure RouteDetails where
  startAddress : String
  endAddress : String
  distance : String
  duration : String
  durationSeconds : Nat
  travelMode : String
  voiceName : String
  storyStyle : String
deriving DecidableEq, Repr

/-- One story segment: `{ ...segmentData, audioBuffer }` in the source.
The audio buffer is opaque to the core, so it is embedded as a `Nat`
handle. -/
structure Segment where
  index : Nat
  text : String
  audioBuffer : Nat
deriving DecidableEq, Repr

/-- The `AudioStory` timeline: total-segment estimate, outline beats,
and the produced segments. -/
structure AudioStory where
  totalSegmentsEstimate : Nat
  outline : List String
  segments : List Segment
deriving DecidableEq, Repr

/-- The state of the `App` component: every `useState`/`useRef` cell the
core logic reads or writes (`scriptError` and `loadingMessage` are kept
for frame-effect reasoning). -/
structure AppComponentState where
  appState : AppState
  route : Option RouteDetails
  story : Option AudioStory
  loadingMessage : String
  scriptError : Option String
  generationError : Option String
  isGeneratingRef : Bool
  isBackgroundGenerating : Bool
  currentPlayingIndex : Nat
deriving DecidableEq, Repr

/-- The Continuous Buffering Engine trigger evaluation (the `useEffect`
body at part_000 lines 84–93): returns `some index` when the effect
calls `generateNextSegment(index)`, and `none` when it returns without
launching.

Source:
```
if (!story || !route || appState < AppState.READY_TO_PLAY) return;
const totalGenerated = story.segments.length;
const neededBufferIndex = currentPlayingIndex + 3;
if (totalGenerated < neededBufferIndex && totalGenerated < story.totalSegmentsEstimate
    && !isGeneratingRef.current) \x7b
    generateNextSegment(totalGenerated + 1);
\x7d
```
-/
def bufferingTrigger (s : AppComponentState) : Option Nat :=
  match s.story, s.route with
  | some story, some _ =>
    if s.appState < AppState.READY_TO_PLAY then none
    else
      let totalGenerated := story.segments.length
      let neededBufferIndex := s.currentPlayingIndex + 3
      if totalGenerated < neededBufferIndex
          && totalGenerated < story.totalSegmentsEstimate
          && !s.isGeneratingRef then
        some (totalGenerated + 1)
      else
        none
  | _, _ => none

/-- C1: for every state with journey phase at least ReadyToPlay, a
timeline, and a route present, the trigger evaluation launches a
Generation Pipeline for index `segments.length + 1` if and only if
`segments.length < playbackIndex + 3` and
`segments.length < totalSegmentsEstimate` and the single-flight lock is
free; it never launches once `segments.length` equals
`totalSegmentsEstimate`, regardless of playback position, and it does
nothing when the phase is below ReadyToPlay. -/
theorem c1_trigger_correctness (s : AppComponentState) (story : AudioStory)
    (r : RouteDetails) (hs : s.story = some story) (hr : s.route = some r) :
    (AppState.READY_TO_PLAY ≤ s.appState →
      (bufferingTrigger s = some (story.segments.length + 1) ↔
        story.segments.length < s.currentPlayingIndex + 3 ∧
        story.segments.length < story.totalSegmentsEstimate ∧
        s.isGeneratingRef = false)) ∧
    (story.segments.length = story.totalSegmentsEstimate →
      bufferingTrigger s = none) ∧
    (s.appState < AppState.READY_TO_PLAY → bufferingTrigger s = none) := by
  have hnotboth : ∀ a : AppState, AppState.READY_TO_PLAY ≤ a → ¬ a < AppState.READY_TO_PLAY := by
    intro a h1 h2
    exact absurd (Nat.lt_of_le_of_lt h1 h2) (Nat.lt_irrefl _)
  refine ⟨?_, ?_, ?_⟩
  · intro hphase
    unfold bufferingTrigger
    rw [hs, hr]
    simp only [if_neg (hnotboth s.appState hphase)]
    constructor
    · intro h
      by_cases hc : story.segments.length < s.currentPlayingIndex + 3
          && story.segments.length < story.totalSegmentsEstimate
          && !s.isGeneratingRef
      · simp only [Bool.and_eq_true, decide_eq_true_eq, Bool.not_eq_true'] at hc
        exact ⟨hc.1.1, hc.1.2, hc.2⟩
      · simp only [if_neg hc] at h
        exact Option.noConfusion h
    · intro ⟨h1, h2, h3⟩
      have hc : (story.segments.length < s.currentPlayingIndex + 3
          && story.segments.length < story.totalSegmentsEstimate
          && !s.isGeneratingRef) = true := by
        simp only [Bool.and_eq_true, decide_eq_true_eq, Bool.not_eq_true']
        exact ⟨⟨h1, h2⟩, h3⟩
      simp only [if_pos hc]
  · intro hfull
    unfold bufferingTrigger
    rw [hs, hr]
    by_cases hphase : s.appState < AppState.READY_TO_PLAY
    · simp only [if_pos hphase]
    · simp only [if_neg hphase]
      have : ¬ story.segments.length < story.totalSegmentsEstimate := by
        rw [hfull]; exact Nat.lt_irrefl _
      have hc : (story.segments.length < s.currentPlayingIndex + 3
          && story.segments.length < story.totalSegmentsEstimate
          && !s.isGeneratingRef) = false := by
        simp only [Bool.and_eq_false_iff]
        left; right
        simpa using this
      simp [hc]
  · intro hphase
    unfold bufferingTrigger
    rw [hs, hr]
    simp only [if_pos hphase]

/-- Witness for C1 at a concrete state: one generated segment, playback
at 0, estimate 10, lock free, phase ReadyToPlay — the trigger launches
index 2. -/
theorem c1_trigger_correctness_witness :
    bufferingTrigger
      { appState := .READY_TO_PLAY
        route := some ⟨"a", "b", "1 km", "10 mins", 600, "WALKING", "Kore", "NOIR"⟩
        story := some ⟨10, ["beat1"], [⟨1, "t1", 0⟩]⟩
        loadingMessage := ""
        scriptError := none
        generationError := none
        isGeneratingRef := false
        isBackgroundGenerating := false
        currentPlayingIndex := 0 } = some 2 := by
  have h := c1_trigger_correctness
      { appState := .READY_TO_PLAY
        route := some ⟨"a", "b", "1 km", "10 mins", 600, "WALKING", "Kore", "NOIR"⟩
        story := some ⟨10, ["beat1"], [⟨1, "t1", 0⟩]⟩
        loadingMessage := ""
        scriptError := none
        generationError := none
        isGeneratingRef := false
        isBackgroundGenerating := false
        currentPlayingIndex := 0 }
      ⟨10, ["beat1"], [⟨1, "t1", 0⟩]⟩
      ⟨"a", "b", "1 km", "10 mins", 600, "WALKING", "Kore", "NOIR"⟩
      rfl rfl
  exact (h.1 (by decide)).mpr (by decide)

/-- The `setStory` merge performed on pipeline success (part_000 lines
121–128): if a segment with the requested index already exists, the new
result is discarded; otherwise it is appended and the list re-sorted
ascending by `index` (JS `sort((a, b) => a.index - b.index)`, a stable
ascending sort, embedded as `insertionSort` on `index ≤ index`).

The segment data returned by the text generator carries the requested
index (spec §6: the generator is `(route, index, …) → text`; the
service module is not under the provided sources). -/
def mergeSegment (prev : AudioStory) (index : Nat) (text : String)
    (audioBuffer : Nat) : AudioStory :=
  if prev.segments.any (fun s => s.index == index) then prev
  else
    { prev with
        segments :=
          List.insertionSort (fun a b => a.index ≤ b.index)
            (prev.segments ++ [⟨index, text, audioBuffer⟩]) }

/-- How the awaited remote calls of one background pipeline invocation
settle: the text step fails (before the audio context is created), or
the text step succeeds and the audio step fails, or both succeed. -/
inductive PipelineOutcome where
  | textFailure (err : String)
  | audioFailure (text : String) (err : String)
  | success (text : String) (audio : Nat)
deriving DecidableEq, Repr

/-- Observable record of one `generateNextSegment(index)` call:
whether the guard let it run, the value of the single-flight lock while
the remote calls were awaited, whether the temporary audio context was
created and closed, what was reported to `console.error`, and the
resulting component state. -/
structure GenRun where
  launched : Bool
  lockDuringAwaits : Bool
  ctxAcquired : Bool
  ctxClosed : Bool
  loggedError : Option String
  final : AppComponentState
deriving DecidableEq, Repr

/-- `generateNextSegment` (part_000 lines 95–137) as a state
transformer, given how the awaited calls settle.

Source shape:
```
if (!route || !story || isGeneratingRef.current) return;
try \x7b
  isGeneratingRef.current = true; setIsBackgroundGenerating(true);
  const segmentData = await withTimeout(generateSegment(...), 60000, ...);
  const tempCtx = new AudioContextClass();
  const audioBuffer = await withTimeout(generateSegmentAudio(...), 100000, ...);
  await tempCtx.close();
  setStory(prev => ...merge...);
\x7d catch (e) \x7b console.error(..., e); \x7d
finally \x7b isGeneratingRef.current = false; setIsBackgroundGenerating(false); \x7d
```
Note `tempCtx.close()` is only reached when the audio step succeeds:
an audio failure jumps to `catch`, which does not close the context. -/
def generateNextSegment (s : AppComponentState) (index : Nat)
    (outcome : PipelineOutcome) : GenRun :=
  match s.route, s.story with
  | some _, some story =>
    if s.isGeneratingRef then
      ⟨false, s.isGeneratingRef, false, false, none, s⟩
    else
      let sLocked := { s with isGeneratingRef := true, isBackgroundGenerating := true }
      match outcome with
      | .textFailure e =>
          ⟨true, sLocked.isGeneratingRef, false, false, some e,
            { sLocked with isGeneratingRef := false, isBackgroundGenerating := false }⟩
      | .audioFailure _ e =>
          ⟨true, sLocked.isGeneratingRef, true, false, some e,
            { sLocked with isGeneratingRef := false, isBackgroundGenerating := false }⟩
      | .success text audio =>
          ⟨true, sLocked.isGeneratingRef, true, true, none,
            { sLocked with
                story := some (mergeSegment story index text audio),
                isGeneratingRef := false, isBackgroundGenerating := false }⟩
  | _, _ => ⟨false, s.isGeneratingRef, false, false, none, s⟩

/-- C2: the single-flight lock is acquired synchronously before any
suspension (it is held during the awaited calls of every launched run),
is never acquired while already held (a launch implies the lock was
free), and is released on every completion, success or failure;
invoking the trigger evaluation or `generateNextSegment` while the lock
is held is a no-op that changes no state. -/
theorem c2_single_flight_lock (s : AppComponentState) (index : Nat)
    (outcome : PipelineOutcome) :
    (s.isGeneratingRef = true →
      (generateNextSegment s index outcome).final = s ∧
      (generateNextSegment s index outcome).launched = false ∧
      bufferingTrigger s = none) ∧
    ((generateNextSegment s index outcome).launched = true →
      s.isGeneratingRef = false ∧
      (generateNextSegment s index outcome).lockDuringAwaits = true ∧
      (generateNextSegment s index outcome).final.isGeneratingRef = false ∧
      (generateNextSegment s index outcome).final.isBackgroundGenerating = false) := by
  constructor
  · intro hlock
    refine ⟨?_, ?_, ?_⟩
    · rcases hr : s.route with _ | r <;> rcases hst : s.story with _ | story <;>
        simp [generateNextSegment, hr, hst, hlock]
    · rcases hr : s.route with _ | r <;> rcases hst : s.story with _ | story <;>
        simp [generateNextSegment, hr, hst, hlock]
    · rcases hr : s.route with _ | r <;> rcases hst : s.story with _ | story <;>
        simp [bufferingTrigger, hr, hst, hlock]
  · intro hlaunch
    rcases hr : s.route with _ | r <;> rcases hst : s.story with _ | story <;>
      rcases hlock : s.isGeneratingRef <;> cases outcome <;>
        simp [generateNextSegment, hr, hst, hlock] at hlaunch ⊢

/-- Witness for C2 at a concrete locked state: with the lock held, the
call leaves the state untouched, does not launch, and the trigger
evaluation launches nothing. -/
theorem c2_single_flight_lock_witness :
    (generateNextSegment
      { appState := .READY_TO_PLAY
        route := some ⟨"a", "b", "1 km", "10 mins", 600, "WALKING", "Kore", "NOIR"⟩
        story := some ⟨10, ["beat1"], [⟨1, "t1", 0⟩]⟩
        loadingMessage := ""
        scriptError := none
        generationError := none
        isGeneratingRef := true
        isBackgroundGenerating := true
        currentPlayingIndex := 0 } 2 (.textFailure "boom")).final =
      { appState := .READY_TO_PLAY
        route := some ⟨"a", "b", "1 km", "10 mins", 600, "WALKING", "Kore", "NOIR"⟩
        story := some ⟨10, ["beat1"], [⟨1, "t1", 0⟩]⟩
        loadingMessage := ""
        scriptError := none
        generationError := none
        isGeneratingRef := true
        isBackgroundGenerating := true
        currentPlayingIndex := 0 } :=
  ((c2_single_flight_lock _ 2 (.textFailure "boom")).1 rfl).1

/-- C6: when a launched background pipeline invocation fails, the Story
Timeline is not mutated, the single-flight lock is released, no
user-facing error is set (the failure goes to the observability sink
only), and no retry is scheduled: a subsequent trigger evaluation
computes exactly what it computed before, in particular the same
`segments.length + 1` index when the launch conditions hold. -/
theorem c6_background_failure_policy (s : AppComponentState) (index : Nat)
    (story : AudioStory) (r : RouteDetails) (outcome : PipelineOutcome)
    (hs : s.story = some story) (hr : s.route = some r)
    (hlock : s.isGeneratingRef = false)
    (hfail : ∀ t a, outcome ≠ PipelineOutcome.success t a) :
    (generateNextSegment s index outcome).final.story = s.story ∧
    (generateNextSegment s index outcome).final.isGeneratingRef = false ∧
    (generateNextSegment s index outcome).final.generationError = s.generationError ∧
    (generateNextSegment s index outcome).loggedError.isSome = true ∧
    bufferingTrigger (generateNextSegment s index outcome).final = bufferingTrigger s := by
  cases outcome with
  | success t a => exact absurd rfl (hfail t a)
  | textFailure e =>
      refine ⟨?_, ?_, ?_, ?_, ?_⟩ <;>
        simp [generateNextSegment, bufferingTrigger, hs, hr, hlock]
  | audioFailure t e =>
      refine ⟨?_, ?_, ?_, ?_, ?_⟩ <;>
        simp [generateNextSegment, bufferingTrigger, hs, hr, hlock]

/-- Witness for C6 at a concrete state: a failing background run for
index 2 leaves the one-segment timeline, the free lock, and the absent
user-facing error in place, and the next trigger evaluation still
computes index 2. -/
theorem c6_background_failure_policy_witness :
    (generateNextSegment
      { appState := .READY_TO_PLAY
        route := some ⟨"a", "b", "1 km", "10 mins", 600, "WALKING", "Kore", "NOIR"⟩
        story := some ⟨10, ["beat1"], [⟨1, "t1", 0⟩]⟩
        loadingMessage := ""
        scriptError := none
        generationError := none
        isGeneratingRef := false
        isBackgroundGenerating := false
        currentPlayingIndex := 0 } 2
      (.audioFailure "t2" "Audio generation timed out for segment 2")).final.story =
      some ⟨10, ["beat1"], [⟨1, "t1", 0⟩]⟩ := by
  have h := c6_background_failure_policy
      { appState := .READY_TO_PLAY
        route := some ⟨"a", "b", "1 km", "10 mins", 600, "WALKING", "Kore", "NOIR"⟩
        story := some ⟨10, ["beat1"], [⟨1, "t1", 0⟩]⟩
        loadingMessage := ""
        scriptError := none
        generationError := none
        isGeneratingRef := false
        isBackgroundGenerating := false
        currentPlayingIndex := 0 } 2
      ⟨10, ["beat1"], [⟨1, "t1", 0⟩]⟩
      ⟨"a", "b", "1 km", "10 mins", 600, "WALKING", "Kore", "NOIR"⟩
      (.audioFailure "t2" "Audio generation timed out for segment 2")
      rfl rfl rfl (by intro t a h; exact PipelineOutcome.noConfusion h)
  exact h.1

/-- JS `String.prototype.includes`, embedded over the character list:
`sub` occurs contiguously somewhere in `s`. -/
def strIncludes (s sub : String) : Bool :=
  (List.range (s.data.length + 1)).any (fun i => sub.data.isPrefixOf (s.data.drop i))

/-- The user-facing message built in the `catch` of `handleGenerateStory`
(part_000 lines 184–187): a generic message, specialized when the
error's message mentions a timeout. -/
def initialFriendlyMessage (err : String) : String :=
  if strIncludes err "timed out" || strIncludes err "timeout" then
    "Story generation timed out. It might be that your journey is too long. Please try again."
  else
    "Failed to start story stream. Please check your locations/connection and try again."

/-- Modelled from the spec: `calculateTotalSegments` lives in
`services/geminiService.ts`, which is not under the provided sources.
Spec §4.4 describes it as a deterministic function of route duration —
expected seconds of narration per segment, a fixed target, rounded,
minimum 1 — and §8 fixes the target: duration 1200 s at 120 s per
segment yields 10. Embedded as round(durationSeconds / 120), min 1. -/
def calculateTotalSegments (durationSeconds : Nat) : Nat :=
  max 1 ((durationSeconds + 60) / 120)

/-- `handleReset` (part_000 lines 193–202). -/
def handleReset (s : AppComponentState) : AppComponentState :=
  { s with
      appState := .PLANNING
      route := none
      story := none
      currentPlayingIndex := 0
      generationError := none
      isGeneratingRef := false
      isBackgroundGenerating := false }

/-- Observable record of one `handleGenerateStory(details)` call:
whether the temporary audio context was created and closed, the error
that reached the `catch` block (if any), and the resulting component
state. -/
structure InitRun where
  ctxAcquired : Bool
  ctxClosed : Bool
  caughtError : Option String
  final : AppComponentState
deriving DecidableEq, Repr

/-- `handleGenerateStory` (part_000 lines 139–191) as a state
transformer, given how the three awaited remote calls settle (outline,
segment-1 text, segment-1 audio). The synchronous prologue stores the
route, clears the user-facing error, and advances the phase; the
`catch` reverts the phase to PLANNING and surfaces the friendly
message. As in `generateNextSegment`, `tempCtx.close()` is only
reached when the audio step succeeds. -/
def handleGenerateStory (s : AppComponentState) (details : RouteDetails)
    (outlineOutcome : Except String (List String))
    (seg1TextOutcome : Except String String)
    (seg1AudioOutcome : Except String Nat) : InitRun :=
  let s0 := { s with
                route := some details
                generationError := none
                appState := AppState.GENERATING_INITIAL_SEGMENT
                loadingMessage := "Crafting story arc...1 - 2 minutes" }
  let totalSegmentsEstimate := calculateTotalSegments details.durationSeconds
  match outlineOutcome with
  | .error e =>
      ⟨false, false, some e,
        { s0 with appState := .PLANNING, generationError := some (initialFriendlyMessage e) }⟩
  | .ok outline =>
    let s1 := { s0 with loadingMessage := "Writing first chapter... 1 minute" }
    match seg1TextOutcome with
    | .error e =>
        ⟨false, false, some e,
          { s1 with appState := .PLANNING, generationError := some (initialFriendlyMessage e) }⟩
    | .ok text =>
      let s2 := { s1 with loadingMessage := "Preparing audio stream...30 seconds" }
      match seg1AudioOutcome with
      | .error e =>
          ⟨true, false, some e,
            { s2 with appState := .PLANNING, generationError := some (initialFriendlyMessage e) }⟩
      | .ok audio =>
          ⟨true, true, none,
            { s2 with
                story := some ⟨totalSegmentsEstimate, outline, [⟨1, text, audio⟩]⟩,
                appState := .READY_TO_PLAY }⟩

/-- Sample route details reused by concrete witnesses. -/
def sampleRoute : RouteDetails :=
  ⟨"221B Baker St", "Trafalgar Square", "3 km", "40 mins", 2400, "WALKING", "Kore", "NOIR"⟩

/-- Sample fresh planning-phase component state reused by concrete
witnesses. -/
def samplePlanningState : AppComponentState :=
  { appState := .PLANNING
    route := none
    story := none
    loadingMessage := ""
    scriptError := none
    generationError := none
    isGeneratingRef := false
    isBackgroundGenerating := false
    currentPlayingIndex := 0 }

/-- Sample playing-phase component state (one generated segment,
estimate 10, lock free) reused by concrete witnesses. -/
def sampleReadyState : AppComponentState :=
  { appState := .READY_TO_PLAY
    route := some sampleRoute
    story := some ⟨10, ["beat1"], [⟨1, "t1", 0⟩]⟩
    loadingMessage := ""
    scriptError := none
    generationError := none
    isGeneratingRef := false
    isBackgroundGenerating := false
    currentPlayingIndex := 0 }

/-- C7: the Initial Generation Pipeline, on any failure, reverts the
journey phase to Planning and surfaces a user-facing error,
specializing a timeout into the friendlier journey-might-be-too-long
message; on success it constructs the Story Timeline with
`segments = [segment 1]` and advances the phase to ReadyToPlay; the
pipeline fails exactly when one of the three awaited steps fails. -/
theorem c7_initial_pipeline (s : AppComponentState) (details : RouteDetails)
    (o : Except String (List String)) (t : Except String String)
    (a : Except String Nat) :
    (∀ e, (handleGenerateStory s details o t a).caughtError = some e →
      (handleGenerateStory s details o t a).final.appState = .PLANNING ∧
      (handleGenerateStory s details o t a).final.generationError =
        some (initialFriendlyMessage e) ∧
      (strIncludes e "timed out" = true →
        (handleGenerateStory s details o t a).final.generationError =
          some "Story generation timed out. It might be that your journey is too long. Please try again.")) ∧
    (∀ outline text audio, o = .ok outline → t = .ok text → a = .ok audio →
      (handleGenerateStory s details o t a).final.story =
        some ⟨calculateTotalSegments details.durationSeconds, outline, [⟨1, text, audio⟩]⟩ ∧
      (handleGenerateStory s details o t a).final.appState = .READY_TO_PLAY) ∧
    ((handleGenerateStory s details o t a).caughtError = none ↔
      (∃ outline, o = .ok outline) ∧ (∃ text, t = .ok text) ∧ (∃ audio, a = .ok audio)) := by
  refine ⟨?_, ?_, ?_⟩
  · intro e he
    cases o <;> cases t <;> cases a <;>
      simp_all [handleGenerateStory, initialFriendlyMessage]
  · intro outline text audio ho ht ha
    subst ho; subst ht; subst ha
    simp [handleGenerateStory]
  · cases o <;> cases t <;> cases a <;> simp [handleGenerateStory]

/-- Witness for C7 at concrete inputs: an outline timeout reverts to
Planning with the friendly timeout message, and a fully successful run
reaches ReadyToPlay with exactly segment 1. -/
theorem c7_initial_pipeline_witness :
    ((handleGenerateStory samplePlanningState sampleRoute
        (.error "Story outline generation timed out") (.ok "t1") (.ok 0)).final.appState
          = AppState.PLANNING ∧
      (handleGenerateStory samplePlanningState sampleRoute
        (.error "Story outline generation timed out") (.ok "t1") (.ok 0)).final.generationError
          = some (initialFriendlyMessage "Story outline generation timed out")) ∧
    ((handleGenerateStory samplePlanningState sampleRoute
        (.ok ["beat1"]) (.ok "t1") (.ok 0)).final.story
          = some ⟨calculateTotalSegments sampleRoute.durationSeconds, ["beat1"], [⟨1, "t1", 0⟩]⟩ ∧
      (handleGenerateStory samplePlanningState sampleRoute
        (.ok ["beat1"]) (.ok "t1") (.ok 0)).final.appState = AppState.READY_TO_PLAY) := by
  constructor
  · have h := (c7_initial_pipeline samplePlanningState sampleRoute
      (.error "Story outline generation timed out") (.ok "t1") (.ok 0)).1
      "Story outline generation timed out" rfl
    exact ⟨h.1, h.2.1⟩
  · exact (c7_initial_pipeline samplePlanningState sampleRoute
      (.ok ["beat1"]) (.ok "t1") (.ok 0)).2.1 ["beat1"] "t1" 0 rfl rfl rfl

/-- C5 fails on the code: when the audio-synthesis step of a pipeline
fails or times out, the `await tempCtx.close()` line is never reached —
the exception jumps to `catch`, which does not close the context — so
the acquired audio-synthesis execution context is NOT released on that
exit path, in the background pipeline and in the initial pipeline
alike. This theorem evaluates both pipelines at such a failing input. -/
theorem c5_ctx_leak_on_audio_failure :
    ((generateNextSegment sampleReadyState 2
        (.audioFailure "t2" "Audio generation timed out for segment 2")).ctxAcquired = true ∧
      (generateNextSegment sampleReadyState 2
        (.audioFailure "t2" "Audio generation timed out for segment 2")).ctxClosed = false) ∧
    ((handleGenerateStory samplePlanningState sampleRoute
        (.ok ["beat1"]) (.ok "t1") (.error "Initial audio generation timed out")).ctxAcquired = true ∧
      (handleGenerateStory samplePlanningState sampleRoute
        (.ok ["beat1"]) (.ok "t1") (.error "Initial audio generation timed out")).ctxClosed = false) :=
  ⟨⟨rfl, rfl⟩, ⟨rfl, rfl⟩⟩

/-- C8 fails on the code: after a failed initial generation attempt the
route details captured at submission are NOT discarded — the `catch`
block only reverts the phase and sets the error message, and `setRoute`
ran in the prologue — so the JourneyPhase is not the only surviving
entity. Concretely, a run from a fresh planning state whose outline
step fails leaves the submitted route stored. -/
theorem c8_route_survives_counterexample :
    (handleGenerateStory samplePlanningState sampleRoute
      (.error "boom") (.error "boom") (.error "boom")).final.route = some sampleRoute ∧
    (handleGenerateStory samplePlanningState sampleRoute
      (.error "boom") (.error "boom") (.error "boom")).final.appState = AppState.PLANNING :=
  ⟨rfl, rfl⟩

/-- C8 amended: after a failed initial generation attempt the journey
phase reverts to Planning and no Story Timeline is created (the story
field is unchanged — still absent for a first attempt), but the route
details captured at submission remain stored, together with the
user-facing error; session data is discarded only by the explicit
reset operation. -/
theorem c8_failure_frame (s : AppComponentState) (details : RouteDetails)
    (o : Except String (List String)) (t : Except String String)
    (a : Except String Nat) (e : String)
    (hfail : (handleGenerateStory s details o t a).caughtError = some e) :
    (handleGenerateStory s details o t a).final.appState = .PLANNING ∧
    (handleGenerateStory s details o t a).final.story = s.story ∧
    (handleGenerateStory s details o t a).final.route = some details ∧
    (handleGenerateStory s details o t a).final.generationError =
      some (initialFriendlyMessage e) ∧
    (handleReset (handleGenerateStory s details o t a).final).route = none ∧
    (handleReset (handleGenerateStory s details o t a).final).story = none := by
  cases o <;> cases t <;> cases a <;>
    simp_all [handleGenerateStory, handleReset]

/-- Witness for C8's amended claim at a concrete failing run: the phase
is Planning, the story is still absent, and the submitted route is
still stored. -/
theorem c8_failure_frame_witness :
    (handleGenerateStory samplePlanningState sampleRoute
      (.error "boom") (.ok "t1") (.ok 0)).final.appState = AppState.PLANNING ∧
    (handleGenerateStory samplePlanningState sampleRoute
      (.error "boom") (.ok "t1") (.ok 0)).final.story = samplePlanningState.story ∧
    (handleGenerateStory samplePlanningState sampleRoute
      (.error "boom") (.ok "t1") (.ok 0)).final.route = some sampleRoute ∧
    (handleGenerateStory samplePlanningState sampleRoute
      (.error "boom") (.ok "t1") (.ok 0)).final.generationError =
        some (initialFriendlyMessage "boom") ∧
    (handleReset (handleGenerateStory samplePlanningState sampleRoute
      (.error "boom") (.ok "t1") (.ok 0)).final).route = none ∧
    (handleReset (handleGenerateStory samplePlanningState sampleRoute
      (.error "boom") (.ok "t1") (.ok 0)).final).story = none :=
  c8_failure_frame samplePlanningState sampleRoute
    (.error "boom") (.ok "t1") (.ok 0) "boom" rfl

/-- What one `withTimeout` call produces: the settled value of the
race, when (if ever) the deadline timer fired, and how many times
`clearTimeout` was called on it. -/
structure TimeoutOutcome (α : Type) where
  result : Except String α
  timerFiredAt : Option Nat
  clearCalls : Nat
deriving Repr

/-- The Timeout Guard `withTimeout` (part_000 lines 23–32), embedded
with explicit timer bookkeeping. The wrapped operation's behavior is
`some (t, r)` — it settles at time `t` with outcome `r` — or `none` —
it never settles. Reading the source step by step:
* a timer is armed to reject with `new Error(errorMsg)` at `ms`;
* the race is between `promise.then(val => \x7b clearTimeout(timer);
  return val; \x7d)` and the timer's promise;
* if the operation resolves strictly before `ms`, the `then`
  continuation clears the timer once, the timer never fires, and the
  race resolves with the value;
* if the operation resolves at or after `ms`, the timer has already
  fired (rejecting the race with the caller's message); the `then`
  continuation still runs and calls `clearTimeout` on the already
  fired timer;
* if the operation rejects, the `then` continuation never runs — there
  is no rejection handler — so `clearTimeout` is never called and the
  timer fires at `ms` regardless; the race settles with the
  operation's error if it rejected first, with the timer's message
  otherwise;
* if the operation never settles, the race rejects at `ms` with the
  caller's message and the timer is never cleared. -/
def withTimeout {α : Type} (op : Option (Nat × Except String α)) (ms : Nat)
    (errorMsg : String) : TimeoutOutcome α :=
  match op with
  | some (t, .ok v) =>
      if t < ms then ⟨.ok v, none, 1⟩
      else ⟨.error errorMsg, some ms, 1⟩
  | some (t, .error e) =>
      if t < ms then ⟨.error e, some ms, 0⟩
      else ⟨.error errorMsg, some ms, 0⟩
  | none => ⟨.error errorMsg, some ms, 0⟩

/-- C4 fails on the code: when the wrapped operation FAILS before the
deadline, the `then` continuation that holds the only `clearTimeout`
call never runs, so the deadline timer is not cancelled and is left to
fire. Concretely: an operation rejecting at 10 ms against a 100 ms
deadline leaves `clearTimeout` uncalled and the timer fires at 100 ms
— contradicting "in every outcome the deadline timer is cancelled
exactly once, never left pending". -/
theorem c4_timer_leak_counterexample :
    (withTimeout (α := Nat) (some (10, Except.error "boom")) 100 "msg").clearCalls = 0 ∧
    (withTimeout (α := Nat) (some (10, Except.error "boom")) 100 "msg").timerFiredAt = some 100 ∧
    (withTimeout (α := Nat) (some (10, Except.error "boom")) 100 "msg").result =
      Except.error "boom" :=
  ⟨rfl, rfl, rfl⟩

/-- C4 amended: `withTimeout` settles with the operation's outcome
(value or error) if the operation settles strictly before the
deadline, and fails with exactly the caller-supplied message
otherwise; the deadline timer is never cancelled twice, it is
cancelled (exactly once) if and only if the operation RESOLVES, and it
never fires exactly when the operation resolves before the deadline —
on operation failure or timeout the timer is left to fire at the
deadline (harmlessly, the race being already settled when it loses). -/
theorem c4_timeout_guard {α : Type} (op : Option (Nat × Except String α))
    (ms : Nat) (msg : String) :
    (∀ t r, op = some (t, r) → t < ms → (withTimeout op ms msg).result = r) ∧
    (op = none → (withTimeout op ms msg).result = Except.error msg) ∧
    (∀ t r, op = some (t, r) → ms ≤ t →
      (withTimeout op ms msg).result = Except.error msg) ∧
    ((withTimeout op ms msg).timerFiredAt = none ↔
      ∃ t v, op = some (t, Except.ok v) ∧ t < ms) ∧
    ((withTimeout op ms msg).clearCalls = 1 ↔ ∃ t v, op = some (t, Except.ok v)) ∧
    (withTimeout op ms msg).clearCalls ≤ 1 := by
  refine ⟨?_, ?_, ?_, ?_, ?_, ?_⟩
  · intro t r ht hlt
    subst ht
    rcases r with e | v
    · simp [withTimeout, hlt]
    · simp [withTimeout, hlt]
  · intro h
    subst h
    simp [withTimeout]
  · intro t r ht hge
    subst ht
    have hnl : ¬ t < ms := Nat.not_lt.mpr hge
    rcases r with e | v
    · simp [withTimeout, hnl]
    · simp [withTimeout, hnl]
  · constructor
    · intro hnone
      rcases hop : op with _ | ⟨t, r⟩
      · subst hop; simp [withTimeout] at hnone
      · subst hop
        rcases r with e | v
        · by_cases h : t < ms <;> simp [withTimeout, h] at hnone
        · by_cases h : t < ms
          · exact ⟨t, v, rfl, h⟩
          · simp [withTimeout, h] at hnone
    · rintro ⟨t, v, rfl, hlt⟩
      simp [withTimeout, hlt]
  · constructor
    · intro hone
      rcases hop : op with _ | ⟨t, r⟩
      · subst hop; simp [withTimeout] at hone
      · subst hop
        rcases r with e | v
        · by_cases h : t < ms <;> simp [withTimeout, h] at hone
        · exact ⟨t, v, rfl⟩
    · rintro ⟨t, v, rfl⟩
      by_cases h : t < ms <;> simp [withTimeout, h]
  · rcases op with _ | ⟨t, r⟩
    · simp [withTimeout]
    · rcases r with e | v
      · by_cases h : t < ms <;> simp [withTimeout, h]
      · by_cases h : t < ms <;> simp [withTimeout, h]

/-- Witness for C4's amended claim at concrete inputs: an operation
resolving at 10 ms against a 100 ms deadline returns its value, the
timer never fires, and `clearTimeout` runs exactly once; an operation
that never settles against a 50 ms deadline rejects with exactly the
supplied message. -/
theorem c4_timeout_guard_witness :
    (withTimeout (α := Nat) (some (10, Except.ok 42)) 100 "msg").result = Except.ok 42 ∧
    (withTimeout (α := Nat) (some (10, Except.ok 42)) 100 "msg").timerFiredAt = none ∧
    (withTimeout (α := Nat) (some (10, Except.ok 42)) 100 "msg").clearCalls = 1 ∧
    (withTimeout (α := Nat) (none : Option (Nat × Except String Nat)) 50 "took too long").result =
      Except.error "took too long" := by
  refine ⟨?_, ?_, ?_, ?_⟩
  · exact (c4_timeout_guard (some (10, Except.ok 42)) 100 "msg").1 10 (Except.ok 42) rfl (by decide)
  · exact ((c4_timeout_guard (some (10, Except.ok 42)) 100 "msg").2.2.2.1).mpr
      ⟨10, 42, rfl, by decide⟩
  · exact ((c4_timeout_guard (some (10, Except.ok 42)) 100 "msg").2.2.2.2.1).mpr ⟨10, 42, rfl⟩
  · exact (c4_timeout_guard (none : Option (Nat × Except String Nat)) 50 "took too long").2.1 rfl

/-- `DirectionsLeg`: the fields of `result.routes[0].legs[0]` that
`handleCalculate` reads from the route resolver's OK response. -/
structure DirectionsLeg where
  start_address : String
  end_address : String
  distanceText : String
  durationText : String
  durationValue : Nat
deriving DecidableEq, Repr

/-- The directions callback of `handleCalculate` on resolver status OK
(part_001 lines 184–201): a resolved route longer than 14400 seconds
is rejected with the too-long message and generation is not started;
otherwise the resolved details are handed to `onRouteFound`, which
starts initial generation. -/
def handleCalculate (leg : DirectionsLeg)
    (travelMode voiceName storyStyle : String) : Except String RouteDetails :=
  if leg.durationValue > 14400 then
    Except.error "Sorry, this journey is too long. Please select a route under 4 hours."
  else
    Except.ok
      ⟨leg.start_address, leg.end_address, leg.distanceText, leg.durationText,
        leg.durationValue, travelMode, voiceName, storyStyle⟩

/-- C9: route confirmation fails with the too-long validation error —
without starting generation — exactly when the resolved route's
duration exceeds 14400 seconds (4 hours); a resolved route with
duration at most 14400 seconds is passed on to initial generation
carrying that duration. -/
theorem c9_route_duration_validation (leg : DirectionsLeg) (m v st : String) :
    ((∃ e, handleCalculate leg m v st = Except.error e) ↔ 14400 < leg.durationValue) ∧
    (∀ d, handleCalculate leg m v st = Except.ok d →
      d.durationSeconds = leg.durationValue ∧ d.durationSeconds ≤ 14400 ∧
      d.startAddress = leg.start_address ∧ d.endAddress = leg.end_address ∧
      d.travelMode = m ∧ d.voiceName = v ∧ d.storyStyle = st) := by
  by_cases h : leg.durationValue > 14400
  · simp [handleCalculate, h]
  · simp [handleCalculate, h]
    omega

/-- Witness for C9 at concrete legs: a 14400-second route is passed on
(boundary inclusive), a 14401-second route is rejected. -/
theorem c9_route_duration_validation_witness :
    (∀ d, handleCalculate ⟨"a", "b", "d", "t", 14400⟩ "WALKING" "Kore" "NOIR" = Except.ok d →
      d.durationSeconds = 14400 ∧ d.durationSeconds ≤ 14400) ∧
    (∃ e, handleCalculate ⟨"a", "b", "d", "t", 14401⟩ "WALKING" "Kore" "NOIR" = Except.error e) := by
  constructor
  · intro d hd
    have h := ((c9_route_duration_validation ⟨"a", "b", "d", "t", 14400⟩ "WALKING" "Kore" "NOIR").2 d hd)
    exact ⟨h.1, h.2.1⟩
  · exact (c9_route_duration_validation ⟨"a", "b", "d", "t", 14401⟩ "WALKING" "Kore" "NOIR").1.mpr
      (by decide)

/-- Well-formedness of the produced-segment list: strictly ascending
`index` — equivalently, sorted ascending by `index` with no duplicate
`index`. -/
def SegmentsWF (l : List Segment) : Prop :=
  l.Pairwise (fun a b => a.index < b.index)

instance : IsTotal Segment (fun a b => a.index ≤ b.index) :=
  ⟨fun a b => Nat.le_total a.index b.index⟩

instance : IsTrans Segment (fun a b => a.index ≤ b.index) :=
  ⟨fun _ _ _ h h' => Nat.le_trans h h'⟩

/-- Merging an index already present in the timeline is discarded: the
timeline is returned unchanged. -/
theorem mergeSegment_present {prev : AudioStory} {idx : Nat} (t : String) (a : Nat)
    (hp : prev.segments.any (fun s => s.index == idx) = true) :
    mergeSegment prev idx t a = prev := by
  simp [mergeSegment, hp]

/-- The merge preserves well-formedness: appending a not-yet-present
index and re-sorting keeps the list strictly ascending by index. -/
theorem mergeSegment_wf {prev : AudioStory} (idx : Nat) (t : String) (a : Nat)
    (h : SegmentsWF prev.segments) :
    SegmentsWF (mergeSegment prev idx t a).segments := by
  by_cases hp : prev.segments.any (fun s => s.index == idx) = true
  · simpa [mergeSegment, hp] using h
  · have hnotmem : idx ∉ prev.segments.map (fun s => s.index) := by
      intro hmem
      rcases List.mem_map.mp hmem with ⟨s, hsmem, hsidx⟩
      exact hp (List.any_eq_true.mpr ⟨s, hsmem, by simp [hsidx]⟩)
    have hnodup_prev : (prev.segments.map (fun s => s.index)).Nodup :=
      List.pairwise_map.mpr (h.imp fun hab => Nat.ne_of_lt hab)
    have hnodup_app :
        ((prev.segments ++ [Segment.mk idx t a]).map (fun s => s.index)).Nodup := by
      rw [List.map_append]
      refine List.Nodup.append hnodup_prev (List.nodup_singleton _) ?_
      intro x hx hx'
      rw [List.map_singleton, List.mem_singleton] at hx'
      subst hx'
      exact hnotmem hx
    have hsorted : (List.insertionSort (fun a b => a.index ≤ b.index)
        (prev.segments ++ [Segment.mk idx t a])).Pairwise (fun a b => a.index ≤ b.index) :=
      List.sorted_insertionSort _ _
    have hperm : (List.insertionSort (fun a b => a.index ≤ b.index)
        (prev.segments ++ [Segment.mk idx t a])).Perm (prev.segments ++ [Segment.mk idx t a]) :=
      List.perm_insertionSort _ _
    have hnodup : ((List.insertionSort (fun a b => a.index ≤ b.index)
        (prev.segments ++ [Segment.mk idx t a])).map (fun s => s.index)).Nodup :=
      ((hperm.map _).nodup_iff).mpr hnodup_app
    have hne : (List.insertionSort (fun a b => a.index ≤ b.index)
        (prev.segments ++ [Segment.mk idx t a])).Pairwise (fun a b => a.index ≠ b.index) :=
      List.pairwise_map.mp hnodup
    have hlt : (List.insertionSort (fun a b => a.index ≤ b.index)
        (prev.segments ++ [Segment.mk idx t a])).Pairwise (fun a b => a.index < b.index) :=
      (hsorted.and hne).imp fun hab => Nat.lt_of_le_of_ne hab.1 hab.2
    simpa [mergeSegment, hp] using hlt

/-- A well-formed segment list holds at most one segment of any given
index. -/
theorem countP_idx_le_one {l : List Segment} (h : SegmentsWF l) (idx : Nat) :
    l.countP (fun s => s.index == idx) ≤ 1 := by
  induction l with
  | nil => simp
  | cons b l ih =>
    rcases List.pairwise_cons.mp h with ⟨hb, hl⟩
    by_cases hbe : b.index = idx
    · have h0 : l.countP (fun s => s.index == idx) = 0 :=
        List.countP_eq_zero.mpr (fun s hs => by
          have := hb s hs
          simp only [beq_iff_eq]
          omega)
      simp [List.countP_cons, hbe, h0]
    · have := ih hl
      simp only [List.countP_cons, hbe]
      simp only [beq_iff_eq, hbe, if_false, decide_eq_true_eq]
      omega

/-- Merging an index into a well-formed timeline yields exactly one
segment of that index, whether or not it was already present. -/
theorem mergeSegment_countP_eq_one {prev : AudioStory} (h : SegmentsWF prev.segments)
    (idx : Nat) (t : String) (a : Nat) :
    (mergeSegment prev idx t a).segments.countP (fun s => s.index == idx) = 1 := by
  by_cases hp : prev.segments.any (fun s => s.index == idx) = true
  · rcases List.any_eq_true.mp hp with ⟨s, hs, hsi⟩
    have h1 : 0 < prev.segments.countP (fun s => s.index == idx) :=
      List.countP_pos_iff.mpr ⟨s, hs, hsi⟩
    have h2 := countP_idx_le_one h idx
    rw [mergeSegment_present t a hp]
    omega
  · have hperm : (List.insertionSort (fun a b => a.index ≤ b.index)
        (prev.segments ++ [Segment.mk idx t a])).Perm (prev.segments ++ [Segment.mk idx t a]) :=
      List.perm_insertionSort _ _
    have h0 : prev.segments.countP (fun s => s.index == idx) = 0 :=
      List.countP_eq_zero.mpr (fun s hs hsi => hp (List.any_eq_true.mpr ⟨s, hs, hsi⟩))
    have : (mergeSegment prev idx t a).segments.countP (fun s => s.index == idx) =
        (prev.segments ++ [Segment.mk idx t a]).countP (fun s => s.index == idx) := by
      simp only [mergeSegment, hp, Bool.false_eq_true, if_false]
      exact hperm.countP_eq _
    rw [this, List.countP_append, h0]
    simp

/-- Timelines reachable in the program: created by the success path of
the Initial Generation Pipeline with exactly segment 1, then evolved
only by the background merge (`setStory` in `generateNextSegment`). -/
inductive TimelineReachable : AudioStory → Prop
  | init (est : Nat) (outline : List String) (text : String) (audio : Nat) :
      TimelineReachable ⟨est, outline, [⟨1, text, audio⟩]⟩
  | merge (story : AudioStory) (index : Nat) (text : String) (audio : Nat) :
      TimelineReachable story →
      TimelineReachable (mergeSegment story index text audio)

/-- C3: in every reachable state, `timeline.segments` is sorted
ascending by index with no duplicate index (strictly ascending);
merging a pipeline result for an index that already exists in the
timeline leaves the timeline unchanged; and two pipeline completions
for the same index yield exactly one Segment with that index. -/
theorem c3_timeline_ordered_dedup (story : AudioStory)
    (h : TimelineReachable story) (idx : Nat) (t1 t2 : String) (a1 a2 : Nat) :
    story.segments.Pairwise (fun a b => a.index < b.index) ∧
    (∀ s ∈ story.segments, ∀ t a, s.index = idx → mergeSegment story idx t a = story) ∧
    (mergeSegment (mergeSegment story idx t1 a1) idx t2 a2).segments.countP
      (fun s => s.index == idx) = 1 := by
  have hwf : SegmentsWF story.segments := by
    induction h with
    | init est outline text audio => simp [SegmentsWF]
    | merge story' i t a h' ih => exact mergeSegment_wf i t a ih
  refine ⟨hwf, ?_, ?_⟩
  · intro s hs t a hsi
    exact mergeSegment_present t a (List.any_eq_true.mpr ⟨s, hs, by simp [hsi]⟩)
  · have h1 := mergeSegment_countP_eq_one hwf idx t1 a1
    have hpos : 0 < (mergeSegment story idx t1 a1).segments.countP
        (fun s => s.index == idx) := by omega
    rcases List.countP_pos_iff.mp hpos with ⟨s, hs, hsi⟩
    rw [mergeSegment_present t2 a2 (List.any_eq_true.mpr ⟨s, hs, hsi⟩)]
    exact h1

/-- Witness for C3 at a concrete reachable timeline (the one the
initial pipeline creates) and a concrete raced index 2. -/
theorem c3_timeline_ordered_dedup_witness :
    (⟨10, ["beat1"], [⟨1, "t1", 0⟩]⟩ : AudioStory).segments.Pairwise
      (fun a b => a.index < b.index) ∧
    (∀ s ∈ (⟨10, ["beat1"], [⟨1, "t1", 0⟩]⟩ : AudioStory).segments, ∀ t a,
      s.index = 2 →
      mergeSegment ⟨10, ["beat1"], [⟨1, "t1", 0⟩]⟩ 2 t a = ⟨10, ["beat1"], [⟨1, "t1", 0⟩]⟩) ∧
    (mergeSegment (mergeSegment ⟨10, ["beat1"], [⟨1, "t1", 0⟩]⟩ 2 "ta" 7) 2 "tb" 8).segments.countP
      (fun s => s.index == 2) = 1 :=
  c3_timeline_ordered_dedup ⟨10, ["beat1"], [⟨1, "t1", 0⟩]⟩
    (TimelineReachable.init 10 ["beat1"] "t1" 0) 2 "ta" "tb" 7 8

/-- The contiguous 1-based index list `[1, 2, …, n]`. -/
def idxList (n : Nat) : List Nat := (List.range n).map (· + 1)

theorem idxList_succ (n : Nat) : idxList (n + 1) = idxList n ++ [n + 1] := by
  simp [idxList, List.range_succ]

theorem mem_idxList {m n : Nat} : m ∈ idxList n ↔ 1 ≤ m ∧ m ≤ n := by
  simp only [idxList, List.mem_map, List.mem_range]
  constructor
  · rintro ⟨k, hk, rfl⟩
    omega
  · intro ⟨h1, h2⟩
    exact ⟨m - 1, by omega, by omega⟩

theorem pairwise_lt_idxList (n : Nat) : (idxList n).Pairwise (· < ·) :=
  List.pairwise_map.mpr ((List.pairwise_lt_range n).imp fun h => Nat.succ_lt_succ h)

/-- A segment list with contiguous indices `1 … n`, extended with a
segment of index `n + 1`, is sorted ascending by index. -/
theorem sorted_append_of_idxList {l : List Segment} {new : Segment}
    (hmap : l.map (fun s => s.index) = idxList l.length)
    (hnew : new.index = l.length + 1) :
    (l ++ [new]).Pairwise (fun a b => a.index ≤ b.index) := by
  have hpl : l.Pairwise (fun a b => a.index < b.index) := by
    have hplt := pairwise_lt_idxList l.length
    rw [← hmap] at hplt
    exact List.pairwise_map.mp hplt
  rw [List.pairwise_append]
  refine ⟨hpl.imp (fun h => Nat.le_of_lt h), by simp, ?_⟩
  intro a ha b hb
  rw [List.mem_singleton] at hb
  subst hb
  have hmem : a.index ∈ idxList l.length := by
    rw [← hmap]
    exact List.mem_map.mpr ⟨a, ha, rfl⟩
  have := (mem_idxList.mp hmem).2
  omega

/-- Merging the next index `length + 1` into a contiguous timeline
appends it at the end: the indices become `1 … length + 1`. -/
theorem mergeSegment_idxList {story : AudioStory} (t : String) (a : Nat)
    (hmap : story.segments.map (fun s => s.index) = idxList story.segments.length) :
    (mergeSegment story (story.segments.length + 1) t a).segments.map (fun s => s.index) =
      idxList (mergeSegment story (story.segments.length + 1) t a).segments.length := by
  have hany : story.segments.any (fun s => s.index == story.segments.length + 1) = false := by
    rw [List.any_eq_false]
    intro s hs
    have hmem : s.index ∈ idxList story.segments.length := by
      rw [← hmap]
      exact List.mem_map.mpr ⟨s, hs, rfl⟩
    have := (mem_idxList.mp hmem).2
    simp only [beq_iff_eq]
    omega
  have hsorted : (story.segments ++
      [Segment.mk (story.segments.length + 1) t a]).Pairwise
        (fun a b => a.index ≤ b.index) :=
    sorted_append_of_idxList hmap rfl
  have heq : List.insertionSort (fun a b => a.index ≤ b.index)
      (story.segments ++ [Segment.mk (story.segments.length + 1) t a]) =
      story.segments ++ [Segment.mk (story.segments.length + 1) t a] :=
    List.Sorted.insertionSort_eq hsorted
  simp only [mergeSegment, hany, Bool.false_eq_true, if_false, heq]
  rw [List.map_append, hmap, List.length_append]
  simp [idxList_succ]

/-- Inversion of the trigger evaluation: whenever it launches, the
timeline exists, the launched index is `length + 1`, the lock is free,
and the estimate is not yet reached. -/
theorem bufferingTrigger_inv {s : AppComponentState} {idx : Nat}
    (h : bufferingTrigger s = some idx) :
    ∃ story, s.story = some story ∧ idx = story.segments.length + 1 ∧
      s.isGeneratingRef = false ∧
      story.segments.length < story.totalSegmentsEstimate := by
  rcases hst : s.story with _ | story
  · simp [bufferingTrigger, hst] at h
  · rcases hr : s.route with _ | r
    · simp [bufferingTrigger, hst, hr] at h
    · refine ⟨story, rfl, ?_⟩
      by_cases hphase : s.appState < AppState.READY_TO_PLAY
      · simp [bufferingTrigger, hst, hr, hphase] at h
      · by_cases hc : (story.segments.length < s.currentPlayingIndex + 3
            && story.segments.length < story.totalSegmentsEstimate
            && !s.isGeneratingRef) = true
        · have h' : some (story.segments.length + 1) = some idx := by
            rw [← h]
            simp [bufferingTrigger, hst, hr, hphase, hc]
          have hidx := Option.some.inj h'
          simp only [Bool.and_eq_true, decide_eq_true_eq, Bool.not_eq_true'] at hc
          exact ⟨hidx.symm, hc.2, hc.1.2⟩
        · simp [bufferingTrigger, hst, hr, hphase, hc] at h

/-- One engine-level configuration of the Continuous Buffering Engine:
the component state plus the index of the pipeline invocation currently
in flight, if any. Scope: one journey after a successful initial
generation — reset and resubmission are outside this model (spec §5
leaves post-reset stale completions open as a design gap). -/
structure EngineState where
  app : AppComponentState
  pending : Option Nat
deriving DecidableEq, Repr

/-- Small-step transitions of the Buffering Engine within one journey:
a trigger evaluation that launches `generateNextSegment(idx)` (which
synchronously takes the lock before its first await), completion of the
in-flight pipeline — success merges into the CURRENT timeline via
`setStory(prev => …)`, failure leaves it untouched, and both release
the lock in `finally` — and playback-position updates pushed by the
player. -/
inductive EngineStep : EngineState → EngineState → Prop
  | launch (s : EngineState) (idx : Nat) (hp : s.pending = none)
      (ht : bufferingTrigger s.app = some idx) :
      EngineStep s
        ⟨{ s.app with isGeneratingRef := true, isBackgroundGenerating := true }, some idx⟩
  | completeSuccess (s : EngineState) (idx : Nat) (text : String) (audio : Nat)
      (story : AudioStory) (hp : s.pending = some idx) (hs : s.app.story = some story) :
      EngineStep s
        ⟨{ s.app with
            story := some (mergeSegment story idx text audio),
            isGeneratingRef := false, isBackgroundGenerating := false }, none⟩
  | completeFailure (s : EngineState) (idx : Nat) (hp : s.pending = some idx) :
      EngineStep s
        ⟨{ s.app with isGeneratingRef := false, isBackgroundGenerating := false }, none⟩
  | playbackUpdate (s : EngineState) (n : Nat) :
      EngineStep s ⟨{ s.app with currentPlayingIndex := n }, s.pending⟩

/-- Engine states reachable within one journey: start at the state a
successful initial generation produces (invoked with the lock free, as
it is from the planning phase), then take engine steps. -/
inductive EngineReachable : EngineState → Prop
  | init (s : AppComponentState) (details : RouteDetails) (outline : List String)
      (text : String) (audio : Nat) (hlock : s.isGeneratingRef = false) :
      EngineReachable
        ⟨(handleGenerateStory s details (Except.ok outline)
            (Except.ok text) (Except.ok audio)).final, none⟩
  | step (s s' : EngineState) : EngineReachable s → EngineStep s s' → EngineReachable s'

/-- The inductive invariant behind C10: a timeline exists whose segment
indices are exactly `1 … length`, the lock mirrors the in-flight
pipeline, and an in-flight pipeline always targets `length + 1`. -/
def EngineInv (s : EngineState) : Prop :=
  ∃ story, s.app.story = some story ∧
    story.segments.map (fun sg => sg.index) = idxList story.segments.length ∧
    s.app.isGeneratingRef = s.pending.isSome ∧
    (∀ idx, s.pending = some idx → idx = story.segments.length + 1)

/-- Every reachable engine state satisfies the inductive invariant. -/
theorem engineInv_of_reachable {s : EngineState} (h : EngineReachable s) :
    EngineInv s := by
  induction h with
  | init s details outline text audio hlock =>
      refine ⟨⟨calculateTotalSegments details.durationSeconds, outline,
        [⟨1, text, audio⟩]⟩, ?_, ?_, ?_, ?_⟩
      · simp [handleGenerateStory]
      · simp [idxList, List.range_succ]
      · simp [handleGenerateStory, hlock]
      · intro idx hidx
        exact Option.noConfusion hidx
  | step s s' hr hstep ih =>
      rcases ih with ⟨story, hst, hmap, hlock, hpend⟩
      cases hstep with
      | launch idx hp ht =>
          rcases bufferingTrigger_inv ht with ⟨story', hst', hidx, hfree, hlt⟩
          rw [hst] at hst'
          have hstory := Option.some.inj hst'
          subst hstory
          refine ⟨story, by simpa using hst, hmap, by simp, ?_⟩
          intro i hi
          have := Option.some.inj hi
          omega
      | completeSuccess idx text audio story0 hp hs =>
          rw [hst] at hs
          have hstory := Option.some.inj hs
          subst hstory
          have hidx := hpend idx hp
          subst hidx
          refine ⟨mergeSegment story (story.segments.length + 1) text audio,
            by simp, mergeSegment_idxList text audio hmap, by simp, ?_⟩
          intro i hi
          exact Option.noConfusion hi
      | completeFailure idx hp =>
          refine ⟨story, by simpa using hst, hmap, by simp, ?_⟩
          intro i hi
          exact Option.noConfusion hi
      | playbackUpdate n =>
          refine ⟨story, by simpa using hst, hmap, by simpa using hlock, ?_⟩
          intro i hi
          exact hpend i (by simpa using hi)

/-- C10 as amended: in every engine state reachable within a single
journey — excluding completions of pipelines left in flight across a
reset, which the unrestricted model below shows can break contiguity —
a Story Timeline exists and its segment indices are exactly the
contiguous range `1 .. segments.length`: created with only segment 1,
the Buffering Engine only ever requests index `segments.length + 1`,
and merges discard already-present indices. -/
theorem c10_contiguous_indices (s : EngineState) (h : EngineReachable s) :
    ∃ story, s.app.story = some story ∧
      story.segments.map (fun sg => sg.index) = idxList story.segments.length := by
  rcases engineInv_of_reachable h with ⟨story, h1, h2, _, _⟩
  exact ⟨story, h1, h2⟩

/-- Witness for C10 at the concrete engine state produced by a
successful initial generation from the sample planning state. -/
theorem c10_contiguous_indices_witness :
    ∃ story,
      (⟨(handleGenerateStory samplePlanningState sampleRoute (Except.ok ["beat1"])
          (Except.ok "t1") (Except.ok 0)).final, none⟩ : EngineState).app.story =
        some story ∧
      story.segments.map (fun sg => sg.index) = idxList story.segments.length :=
  c10_contiguous_indices _
    (EngineReachable.init samplePlanningState sampleRoute ["beat1"] "t1" 0 rfl)

/-- The `setStory` functional updater of `generateNextSegment`
(part_000 lines 121–128) applied to whatever story is CURRENT when the
pipeline completes: `prev => \x7b if (!prev) return null; … merge … \x7d` —
null stays null, otherwise the dedup-check/append/sort merge runs with
the completing invocation's captured index. -/
def mergeIntoCurrent (cur : Option AudioStory) (idx : Nat) (text : String)
    (audio : Nat) : Option AudioStory :=
  match cur with
  | none => none
  | some st => some (mergeSegment st idx text audio)

/-- A full-program engine configuration: the component state plus the
captured indices of ALL background pipeline invocations currently in
flight. Unlike `EngineState`, nothing ties an invocation to the journey
it was launched for — exactly as in the source, where a reset clears
the lock flag but cancels nothing. -/
structure FullState where
  app : AppComponentState
  pending : List Nat
deriving DecidableEq, Repr

/-- Full-program transitions, each embedding one event of the source:
route submission running `handleGenerateStory` (enabled while the phase
is PLANNING), a trigger evaluation launching `generateNextSegment(idx)`
(which checks only the boolean lock — it cannot see pipelines that
survived a reset), completion of any in-flight invocation (success
merges its captured index into the CURRENT story via
`setStory(prev => …)`, failure merges nothing; both clear the flags in
`finally`), playback updates, and `handleReset` — which clears the
flags, route and story but leaves in-flight invocations running
(part_000:193-202; nothing cancels them). -/
inductive FullStep : FullState → FullState → Prop
  | submit (s : FullState) (details : RouteDetails)
      (o : Except String (List String)) (t : Except String String)
      (a : Except String Nat) (h : s.app.appState = AppState.PLANNING) :
      FullStep s ⟨(handleGenerateStory s.app details o t a).final, s.pending⟩
  | launchBg (s : FullState) (idx : Nat) (ht : bufferingTrigger s.app = some idx) :
      FullStep s
        ⟨{ s.app with isGeneratingRef := true, isBackgroundGenerating := true },
          idx :: s.pending⟩
  | completeBgSuccess (s : FullState) (idx : Nat) (text : String) (audio : Nat)
      (hp : idx ∈ s.pending) :
      FullStep s
        ⟨{ s.app with
            story := mergeIntoCurrent s.app.story idx text audio,
            isGeneratingRef := false, isBackgroundGenerating := false },
          s.pending.erase idx⟩
  | completeBgFailure (s : FullState) (idx : Nat) (hp : idx ∈ s.pending) :
      FullStep s
        ⟨{ s.app with isGeneratingRef := false, isBackgroundGenerating := false },
          s.pending.erase idx⟩
  | playbackUpdate (s : FullState) (n : Nat) :
      FullStep s ⟨{ s.app with currentPlayingIndex := n }, s.pending⟩
  | reset (s : FullState) :
      FullStep s ⟨handleReset s.app, s.pending⟩

/-- Full-program reachability: start from the component's initial
`useState` values (planning phase, no route, no story, flags clear,
playback 0 — the literal `samplePlanningState`) and take any number of
full-program steps, resets and resubmissions included. -/
inductive FullReachable : FullState → Prop
  | start : FullReachable ⟨samplePlanningState, []⟩
  | step (s s' : FullState) : FullReachable s → FullStep s s' → FullReachable s'

/-- The gap timeline a stale cross-reset completion produces: segment
indices `[1, 3]` instead of the contiguous `[1, 2]`. -/
def staleStory : AudioStory :=
  ⟨20, ["beat1"], [⟨1, "t1", 0⟩, ⟨3, "tStale", 7⟩]⟩

/-- The concrete reachable full-program state holding `staleStory`:
second journey playing, no pipeline in flight any more. -/
def staleJourneyState : FullState :=
  ⟨{ appState := .READY_TO_PLAY
     route := some sampleRoute
     story := some staleStory
     loadingMessage := "Preparing audio stream...30 seconds"
     scriptError := none
     generationError := none
     isGeneratingRef := false
     isBackgroundGenerating := false
     currentPlayingIndex := 0 }, []⟩

/-- C10 fails on the code: the claim's "no gap or out-of-range index
can ever appear" does not survive a reset with a pipeline in flight.
Concrete trace: first journey generates segments 1 and 2, the engine
launches index 3, the user resets (clearing the lock but cancelling
nothing), a second journey succeeds with fresh timeline `[1]`, then the
stale invocation completes and its `setStory(prev => …)` merge finds
index 3 absent from `[1]` and appends it — reachable state with
segment indices `[1, 3]`, a gap: not the contiguous range
`1 .. segments.length = [1, 2]`. -/
theorem c10_stale_merge_counterexample :
    FullReachable staleJourneyState ∧
    staleJourneyState.app.story = some staleStory ∧
    staleStory.segments.map (fun sg => sg.index) = [1, 3] ∧
    idxList staleStory.segments.length = [1, 2] ∧
    staleStory.segments.map (fun sg => sg.index) ≠ idxList staleStory.segments.length := by
  refine ⟨?_, rfl, rfl, rfl, by decide⟩
  have h0 : FullReachable ⟨samplePlanningState, []⟩ := FullReachable.start
  have h1 := FullReachable.step _ _ h0
    (FullStep.submit _ sampleRoute (Except.ok ["beat1"]) (Except.ok "t1")
      (Except.ok 0) rfl)
  have h2 := FullReachable.step _ _ h1 (FullStep.launchBg _ 2 (by decide))
  have h3 := FullReachable.step _ _ h2
    (FullStep.completeBgSuccess _ 2 "t2" 0 (by decide))
  have h4 := FullReachable.step _ _ h3 (FullStep.launchBg _ 3 (by decide))
  have h5 := FullReachable.step _ _ h4 (FullStep.reset _)
  have h6 := FullReachable.step _ _ h5
    (FullStep.submit _ sampleRoute (Except.ok ["beat1"]) (Except.ok "t1")
      (Except.ok 0) rfl)
  have h7 := FullReachable.step _ _ h6
    (FullStep.completeBgSuccess _ 3 "tStale" 7 (by decide))
  exact h7

end LeveragePathsStories
